import Mathlib

/-!
Shallow embedding of `podctl.py` (ParadigmHyperloop/podctl), the OpenLoop
command client.  Pure data is translated directly; the stateful `Pod`
session object is translated to explicit state passing, with observable
side effects (socket writes, stdout writes, log records, socket closes)
collected in an event trace.  Wall-clock instants (`datetime.now()`) are
modelled as integer millisecond timestamps passed in explicitly; the
1-second `PING_TIMEOUT` (`timedelta(seconds=1)`) becomes `1000`.
A Python exception escaping a function is modelled by an `Option` result
(`none` = the call raised), together with the mutated state at the point
the exception was thrown, since mutations to `self` persist past a raise.
-/

/-- Modelled from the spec: the `ansi` module (`from ansi import Ansi`) is
part of the repository but its file is not under `src/`.  The spec treats it
as a pure formatting collaborator: `highlight(text, semanticColor) -> text`
and `stripFormatting(text) -> text`, producing color/format markup that
`strip` removes (so markup contributes to raw length but not visible width).
We model it with the standard ANSI SGR escape sequences. -/
def Ansi.esc : Char := Char.ofNat 27

def Ansi.make_bold (s : String) : String :=
  "\u001B[1m" ++ s ++ "\u001B[0m"

def Ansi.make_red (s : String) : String :=
  "\u001B[31m" ++ s ++ "\u001B[0m"

def Ansi.make_green (s : String) : String :=
  "\u001B[32m" ++ s ++ "\u001B[0m"

def Ansi.make_yellow (s : String) : String :=
  "\u001B[33m" ++ s ++ "\u001B[0m"

/-- Remove every ANSI escape sequence from a character list; the `Bool`
flag records whether we are currently inside an escape sequence (which ends
at the terminating `m`). -/
def Ansi.stripAux : List Char → Bool → List Char
  | [], _ => []
  | c :: rest, true =>
    if c = 'm' then Ansi.stripAux rest false else Ansi.stripAux rest true
  | c :: rest, false =>
    if c = Ansi.esc then Ansi.stripAux rest true
    else c :: Ansi.stripAux rest false

/-- `Ansi.strip`: remove color/format markup, leaving the visible text. -/
def Ansi.strip (s : String) : String :=
  String.mk (Ansi.stripAux s.toList false)

/-- Python `str.split(sep)` for a single-character separator: split at every
occurrence, keeping empty fields. -/
def splitChar (c : Char) : List Char → List (List Char)
  | [] => [[]]
  | x :: xs =>
    let r := splitChar c xs
    if x = c then [] :: r
    else
      match r with
      | [] => [[x]]
      | g :: gs => (x :: g) :: gs

/-- Digits of a token, `none` if empty or any non-digit occurs. -/
def parseDigits : List Char → Option Nat
  | [] => none
  | cs => go cs 0
where
  go : List Char → Nat → Option Nat
    | [], acc => some acc
    | c :: rest, acc =>
      if c.isDigit then go rest (acc * 10 + (c.toNat - 48)) else none

/-- Strip leading and trailing whitespace from a character list. -/
def trimChars (cs : List Char) : List Char :=
  ((cs.dropWhile Char.isWhitespace).reverse.dropWhile Char.isWhitespace).reverse

/-- Python `int(s)` on a string: strips surrounding whitespace, then an
optional sign followed by digits; `none` models the `ValueError` raised on
anything else (e.g. `int("ARMED")`). -/
def pyInt? (s : String) : Option Int :=
  match trimChars s.toList with
  | '-' :: rest => (parseDigits rest).map (fun n => -(n : Int))
  | '+' :: rest => (parseDigits rest).map (fun n => (n : Int))
  | cs => (parseDigits cs).map (fun n => (n : Int))

/-- Python `needle in hay` substring containment, on character lists. -/
def containsSub (needle : List Char) : List Char → Bool
  | [] => needle.isEmpty
  | c :: rest => needle.isPrefixOf (c :: rest) || containsSub needle rest

/-- Python `needle in hay` on strings. -/
def strContains (hay needle : String) : Bool :=
  containsSub needle.toList hay.toList

/-- Number of trailing space characters of a string. -/
def trailingSpaces (s : String) : Nat :=
  s.toList.reverse.takeWhile (fun c => c = ' ') |>.length

example : Ansi.strip (Ansi.make_bold "hi") = "hi" := by decide
example : pyInt? "6" = some 6 := by decide
example : pyInt? "ARMED" = none := by decide
example : (splitChar ':' "PONG:6".toList).map String.mk = ["PONG", "6"] := by
  decide
example : strContains "xxPONGyy" "PONG" = true := by decide
example : strContains "xx PON Gyy" "PONG" = false := by decide

/-! ## PodState (`class PodState(metaclass=PodStateType)`) -/

/-- `PodStateType.MAP`: canonical state name → ordinal (insertion order
preserved, as in a Python dict). -/
def PodState.MAP : List (String × Int) :=
  [("POST", 0), ("BOOT", 1), ("LPFILL", 2), ("HPFILL", 3), ("LOAD", 4),
   ("STANDBY", 5), ("ARMED", 6), ("PUSHING", 7), ("COASTING", 8),
   ("BRAKING", 9), ("VENT", 10), ("RETRIEVAL", 11), ("EMERGENCY", 12),
   ("SHUTDOWN", 13)]

/-- `PodStateType.SHORT_MAP`: 4-character short code → ordinal. -/
def PodState.SHORT_MAP : List (String × Int) :=
  [("POST", 0), ("BOOT", 1), ("LPFL", 2), ("HPFL", 3), ("LOAD", 4),
   ("STBY", 5), ("ARMD", 6), ("PUSH", 7), ("COAS", 8),
   ("BRKE", 9), ("VENT", 10), ("RETR", 11), ("EMRG", 12), ("SDWN", 13)]

/-- `PodStateType.__getattr__`: class-attribute access `PodState.NAME`
resolves through `MAP` (raising `AttributeError`, i.e. `none`, on a miss). -/
def PodState.getattr? (name : String) : Option Int :=
  PodState.MAP.lookup name

/-- A `PodState` instance: just the integer `self._state`. -/
structure PodState where
  _state : Int
deriving DecidableEq, Repr

/-- `PodState.__init__(self, state)` with a string argument does
`self._state = int(state)`; `none` models the `ValueError` raised when the
token is not integer-convertible. -/
def PodState.mk? (token : String) : Option PodState :=
  (pyInt? token).map PodState.mk

/-- `PodState.is_fault`: `self._state == PodState.EMERGENCY`. -/
def PodState.is_fault (p : PodState) : Bool :=
  (PodState.getattr? "EMERGENCY").any (fun v => p._state == v)

/-- `PodState.is_moving`: `self._state in (BRAKING, COASTING, PUSHING)`. -/
def PodState.is_moving (p : PodState) : Bool :=
  ([PodState.getattr? "BRAKING", PodState.getattr? "COASTING",
    PodState.getattr? "PUSHING"]).any (fun v => v == some p._state)

/-- `PodState.__str__`: first key of `MAP` whose value equals `_state`,
falling back to `"UNKNOWN"`. -/
def PodState.str (p : PodState) : String :=
  match PodState.MAP.filter (fun kv => kv.2 == p._state) with
  | [] => "UNKNOWN"
  | kv :: _ => kv.1

/-- `PodState.short`: first key of `SHORT_MAP` whose value equals `_state`,
falling back to `"----"`. -/
def PodState.short (p : PodState) : String :=
  match PodState.SHORT_MAP.filter (fun kv => kv.2 == p._state) with
  | [] => "----"
  | kv :: _ => kv.1

example : PodState.str ⟨6⟩ = "ARMED" := by decide
example : PodState.short ⟨6⟩ = "ARMD" := by decide
example : PodState.str ⟨99⟩ = "UNKNOWN" := by decide
example : PodState.mk? "ARMED" = none := by decide
example : PodState.mk? "6" = some ⟨6⟩ := by decide
example : PodState.is_fault ⟨12⟩ = true := by decide
example : PodState.is_moving ⟨8⟩ = true := by decide

/-! ## Pod session (`class Pod`) -/

/-- `PING_TIMEOUT = timedelta(seconds=1)`, in model milliseconds. -/
def PING_TIMEOUT : Int := 1000

/-- `MAX_MESSAGE_SIZE = 2048`. -/
def MAX_MESSAGE_SIZE : Nat := 2048

/-- Observable side effects of a `Pod` method call, in order. -/
inductive Ev where
  /-- bytes written to the socket (`self.sock.send`) -/
  | sent (data : String)
  /-- text written to standard output (`sys.stdout.write` / `user_write`) -/
  | stdout (text : String)
  /-- a record emitted through `logging.error` -/
  | logged
  /-- text emitted through `print` -/
  | printed (text : String)
  /-- an OS-level socket close (`self.sock.close()`) of this descriptor -/
  | sockClosed (fd : Int)
deriving DecidableEq, Repr

/-- The process-wide prompt-rendering globals `PROMPT_TRACK` and
`LAST_PROMPT`. -/
structure RenderState where
  PROMPT_TRACK : Nat
  LAST_PROMPT : String
deriving DecidableEq, Repr

/-- `progress()`: advance `PROMPT_TRACK` modulo 5 and return the rotating
dot/space walker. -/
def progress (rs : RenderState) : RenderState × String :=
  let t := (rs.PROMPT_TRACK + 1) % 5
  ({ rs with PROMPT_TRACK := t },
   String.mk (List.replicate t '.') ++ String.mk (List.replicate (4 - t) ' '))

/-- The mutable state of a `Pod` object.  The socket handle is `some fd`
when `self.sock` holds a socket object whose OS descriptor is `fd`
(`fileno()` returns `fd`); `none` is Python `None`. -/
structure Pod where
  sock : Option Int
  addr : String × Int
  last_ping : Int
  recieved : Nat
  state : Option PodState
deriving DecidableEq, Repr

/-- `Pod.__init__`. -/
def Pod.init (addr : String × Int) (now : Int) : Pod :=
  { sock := none, addr := addr, last_ping := now, recieved := 0,
    state := none }

/-- `Pod.is_connected`: `self.sock is not None and self.sock.fileno() >= 0`. -/
def Pod.is_connected (p : Pod) : Bool :=
  match p.sock with
  | none => false
  | some fd => fd ≥ 0

/-- `Pod.close`: close and clear the socket handle if present. -/
def Pod.close (p : Pod) : Pod × List Ev :=
  match p.sock with
  | some fd => ({ p with sock := none }, [Ev.sockClosed fd])
  | none => (p, [])

/-- `Pod.send(data)`: no-op when disconnected; otherwise write the bytes.
`io_ok = false` models `self.sock.send` raising, in which case the
exception is caught, logged, and the session closed. -/
def Pod.send (p : Pod) (data : String) (io_ok : Bool) : Pod × List Ev :=
  if p.is_connected then
    if io_ok then (p, [Ev.sent data])
    else
      let (p2, evs) := p.close
      (p2, Ev.logged :: evs)
  else (p, [])

/-- `Pod.command(cmd)`: `self.send(cmd + "\n")`. -/
def Pod.command (p : Pod) (cmd : String) (io_ok : Bool) : Pod × List Ev :=
  p.send (cmd ++ "\n") io_ok

/-- `Pod.ping(_)`: send the `"ping"` probe, then close the session when it
is connected, at least one reply was received, and more than `PING_TIMEOUT`
has elapsed since `last_ping`.  `now` stands for the `datetime.now()` read
inside the method; `io_ok` is the socket-write outcome inside `send`. -/
def Pod.ping (p : Pod) (now : Int) (io_ok : Bool) : Pod × List Ev :=
  let (p1, evs1) := p.send "ping" io_ok
  let timed_out := now - p1.last_ping > PING_TIMEOUT
  if p1.is_connected && timed_out && decide (p1.recieved > 0) then
    let (p2, evs2) := p1.close
    (p2, evs1 ++ [Ev.printed (Ansi.make_bold (Ansi.make_red "PING TIMEOUT!"))]
           ++ evs2)
  else (p1, evs1)

/-- Python `str.rstrip()`: remove trailing whitespace. -/
def pyRstrip (s : String) : String :=
  String.mk ((s.toList.reverse.dropWhile Char.isWhitespace).reverse)

/-- `make_prompt(pod, extra="> ")`: build the colored status line, pad it
with trailing spaces when the previous prompt's stripped length exceeds the
new stripped length (the pad count uses the *unstripped* `LAST_PROMPT`
length, exactly as the source does), and store the `rstrip`-ed result back
into `LAST_PROMPT`. -/
def make_prompt (pod : Pod) (rs : RenderState) (extra : String) :
    RenderState × String :=
  let details0 := pod.addr.1 ++ ":" ++ toString pod.addr.2
  let (rs1, details) :=
    match pod.state with
    | some st =>
      let d := details0 ++ " " ++ st.short
      (rs, if st.is_fault then Ansi.make_red d else Ansi.make_green d)
    | none =>
      let (rs', walker) := progress rs
      (rs', Ansi.make_yellow (details0 ++ " " ++ walker))
  let text := Ansi.make_bold ("Pod(" ++ details ++ ")" ++ extra)
  let raw := Ansi.strip text
  let text :=
    if (Ansi.strip rs1.LAST_PROMPT).length > raw.length then
      text ++ String.mk (List.replicate (rs1.LAST_PROMPT.length - raw.length) ' ')
    else text
  ({ rs1 with LAST_PROMPT := pyRstrip text }, text)

/-- `data.split(":")[1]`: the second colon-separated field, `none` when the
index is out of range (Python `IndexError`). -/
def splitField1 (data : String) : Option String :=
  ((splitChar ':' data.toList).get? 1).map String.mk

/-- Result of `Pod.handle_data`: the mutated pod and render globals, the
trace of observable effects, and the Python return value (`none` when the
call raised before returning). -/
structure HDResult where
  pod : Pod
  rs : RenderState
  evs : List Ev
  ret : Option Bool
deriving DecidableEq, Repr

/-- `Pod.handle_data(data)`: if `"PONG" in data`, refresh `last_ping`,
increment `recieved`, parse `PodState(data.split(":")[1])` (which raises on
a missing or non-integer token — the bookkeeping updates persist), and
redraw the prompt in place only when the parsed state differs from the
previously known one; otherwise write `data` verbatim to stdout.  Returns
`"PONG" not in data`. -/
def Pod.handle_data (p : Pod) (now : Int) (rs : RenderState) (data : String) :
    HDResult :=
  if strContains data "PONG" then
    let p1 := { p with last_ping := now, recieved := p.recieved + 1 }
    match splitField1 data with
    | none => ⟨p1, rs, [], none⟩
    | some tok =>
      match PodState.mk? tok with
      | none => ⟨p1, rs, [], none⟩
      | some st =>
        let redraw :=
          match p1.state with
          | none => true
          | some s0 => st._state != s0._state
        if redraw then
          let p2 := { p1 with state := some st }
          let (rs2, prompt) := make_prompt p2 rs "> "
          ⟨p2, rs2, [Ev.stdout "\r", Ev.stdout prompt], some false⟩
        else
          ⟨{ p1 with state := some st }, rs, [], some false⟩
  else
    ⟨p, rs, [Ev.stdout data], some true⟩

/-- Outcome of the environment during `Pod.connect`:
`socket.create_connection` raising, the new socket's `setsockopt` raising
after the socket (descriptor `fd`) was created and assigned, or full
success with descriptor `fd`.  Descriptors of open sockets are
nonnegative. -/
inductive ConnectOutcome where
  | createFail
  | sockoptFail (fd : Nat)
  | ok (fd : Nat)
deriving DecidableEq, Repr

/-- `Pod.connect()`: on success assign the new socket, reset `recieved` to 0
and `last_ping` to now; on any failure, `self.close()` and re-raise (the
`Bool` component is `true` iff the call raised). -/
def Pod.connect (p : Pod) (now : Int) (oc : ConnectOutcome) :
    Pod × List Ev × Bool :=
  match oc with
  | ConnectOutcome.createFail =>
    let (p2, evs) := p.close
    (p2, evs, true)
  | ConnectOutcome.sockoptFail fd =>
    let p1 := { p with sock := some (fd : Int) }
    let (p2, evs) := p1.close
    (p2, evs, true)
  | ConnectOutcome.ok fd =>
    ({ p with sock := some (fd : Int), recieved := 0, last_ping := now },
     [], false)

/-! ## Heart (`class Heart`) -/

/-- A `Heart` object: interval (seconds) and the cooperative `running`
flag. -/
structure Heart where
  interval : Nat
  running : Bool
deriving DecidableEq, Repr

/-- `Heart.stop()`: clear the `running` flag. -/
def Heart.stop (h : Heart) : Heart :=
  { h with running := false }

/-- The body of `Heart.start()`: `while self.running: callback(); sleep`.
The `running` flag is shared with the thread calling `stop()`, so the value
read at the k-th loop-condition check is modelled by an observation stream
`observe : Nat → Bool` covering every interleaving.  `startAux observe k
fuel` runs the loop from the k-th check with `fuel` remaining checks,
returning the total number of loop-condition checks that observed `true`
(equivalently, the number of callback invocations) when the loop exits
within the fuel, and `none` when it does not. -/
def Heart.startAux (observe : Nat → Bool) : Nat → Nat → Option Nat
  | _, 0 => none
  | k, fuel + 1 =>
    if observe k then Heart.startAux observe (k + 1) fuel
    else some k

/-- `Heart.start()` (after setting `running := true`): run the loop from the
first condition check. -/
def Heart.start (observe : Nat → Bool) (fuel : Nat) : Option Nat :=
  Heart.startAux observe 0 fuel

example : Heart.start (fun i => decide (i < 2)) 5 = some 2 := by decide

/-! ## Claim theorems -/

/-- C7: `close()` is idempotent and total: on an already-disconnected
session (socket handle `None`) it is a no-op with no effects; after any
`close()` the socket handle is cleared, `is_connected` is false, and a
second `close()` in a row does nothing (so it cannot fault). -/
theorem close_idempotent_spec (p : Pod) :
    (p.sock = none → p.close = (p, [])) ∧
    (p.close).1.sock = none ∧
    (p.close).1.is_connected = false ∧
    (p.close).1.close = ((p.close).1, []) := by
  rcases p with ⟨sock, addr, lp, rc, st⟩
  cases sock <;> simp [Pod.close, Pod.is_connected]

/-- Witness for C7 at a concrete disconnected session and a concrete
connected one. -/
theorem close_idempotent_witness :
    Pod.close ⟨none, ("127.0.0.1", 7779), 0, 0, none⟩ =
      (⟨none, ("127.0.0.1", 7779), 0, 0, none⟩, []) ∧
    (Pod.close ⟨some 3, ("127.0.0.1", 7779), 0, 0, none⟩).1.sock = none :=
  ⟨(close_idempotent_spec _).1 rfl, (close_idempotent_spec _).2.1⟩

/-- C6: `send` never raises: it returns without any effect when the session
is disconnected, and when an I/O failure occurs while connected it logs the
error and closes the session (the socket handle becomes `None`) instead of
propagating the exception. -/
theorem send_spec (p : Pod) (data : String) (io_ok : Bool) :
    (p.is_connected = false → p.send data io_ok = (p, [])) ∧
    (p.is_connected = true →
      p.send data true = (p, [Ev.sent data]) ∧
      ∃ fd, p.sock = some fd ∧
        (p.send data false).1.sock = none ∧
        (p.send data false).1.is_connected = false ∧
        (p.send data false).2 = [Ev.logged, Ev.sockClosed fd]) := by
  rcases p with ⟨sock, addr, lp, rc, st⟩
  cases sock with
  | none => simp [Pod.send, Pod.is_connected]
  | some fd =>
    refine ⟨fun h => by simp [Pod.send, h], fun h => ?_⟩
    have hfd : (0 : Int) ≤ fd := by simpa [Pod.is_connected] using h
    exact ⟨by simp [Pod.send, h], fd, rfl,
      by simp [Pod.send, Pod.close, Pod.is_connected, h, hfd]⟩

/-- Witness for C6 at a concrete disconnected session and a concrete
connected session with a failing socket write. -/
theorem send_spec_witness :
    Pod.send ⟨none, ("127.0.0.1", 7779), 0, 0, none⟩ "cmd" true =
      (⟨none, ("127.0.0.1", 7779), 0, 0, none⟩, []) ∧
    (Pod.send ⟨some 3, ("127.0.0.1", 7779), 0, 0, none⟩ "cmd" false).1.sock =
      none :=
  ⟨(send_spec _ "cmd" true).1 (by decide),
   by
    obtain ⟨heq, fd, h0, h1, h2, h3⟩ := (send_spec ⟨some 3, ("127.0.0.1", 7779),
      0, 0, none⟩ "cmd" false).2 (by decide)
    exact h1⟩

/-- C5: if `connect()` fails — whether `socket.create_connection` itself
raises or the subsequent `setsockopt` raises on the freshly created socket —
then afterwards the socket handle is `None`, `is_connected()` is false, the
error is re-raised to the caller, and a socket created during the failed
attempt is closed (no leaked descriptor). -/
theorem connect_failure_spec (p : Pod) (now : Int) (fd : Nat) :
    ((p.connect now ConnectOutcome.createFail).1.sock = none ∧
     (p.connect now ConnectOutcome.createFail).1.is_connected = false ∧
     (p.connect now ConnectOutcome.createFail).2.2 = true) ∧
    ((p.connect now (ConnectOutcome.sockoptFail fd)).1.sock = none ∧
     (p.connect now (ConnectOutcome.sockoptFail fd)).1.is_connected = false ∧
     (p.connect now (ConnectOutcome.sockoptFail fd)).2.2 = true ∧
     Ev.sockClosed (fd : Int) ∈
       (p.connect now (ConnectOutcome.sockoptFail fd)).2.1) := by
  rcases p with ⟨sock, addr, lp, rc, st⟩
  cases sock <;> simp [Pod.connect, Pod.close, Pod.is_connected]

/-- C2: `ping` performs the `send("ping")` probe unconditionally (its event
trace always begins with exactly the probe-send's trace, whatever the
session and I/O outcome), and — when the probe write itself does not fail —
it closes the session (an OS socket close occurs) if and only if the session
is connected, at least one liveness reply has been received this connection,
and now minus `last_ping` exceeds the 1-second `PING_TIMEOUT`; in
particular, with `recieved = 0` the session is never closed, however stale
`last_ping` is. -/
theorem ping_spec (p : Pod) (now : Int) (io_ok : Bool) :
    (∃ rest, (p.ping now io_ok).2 = (p.send "ping" io_ok).2 ++ rest) ∧
    ((∃ fd, Ev.sockClosed fd ∈ (p.ping now true).2) ↔
      (p.is_connected = true ∧ 0 < p.recieved ∧
        now - p.last_ping > PING_TIMEOUT)) := by
  constructor
  · rcases hs : p.send "ping" io_ok with ⟨p1, evs1⟩
    rcases hc : p1.close with ⟨p2, evs2⟩
    simp only [Pod.ping, hs, hc]
    split
    · exact ⟨[Ev.printed (Ansi.make_bold (Ansi.make_red "PING TIMEOUT!"))]
        ++ evs2, by simp⟩
    · exact ⟨[], by simp⟩
  · rcases p with ⟨sock, addr, lp, rc, st⟩
    cases sock with
    | none => simp [Pod.ping, Pod.send, Pod.is_connected]
    | some fd =>
      by_cases hfd : (0 : Int) ≤ fd
      · by_cases hrc : 0 < rc
        · by_cases ht : now - lp > PING_TIMEOUT
          · simp [Pod.ping, Pod.send, Pod.is_connected, Pod.close, hfd, hrc,
              ht]
          · simp [Pod.ping, Pod.send, Pod.is_connected, Pod.close, hfd, hrc,
              ht]
        · simp [Pod.ping, Pod.send, Pod.is_connected, Pod.close, hfd, hrc]
      · simp [Pod.ping, Pod.send, Pod.is_connected, Pod.close, hfd]

/-- C3 counterexample: constructing a `PodState` by parsing a known state
*name* fails for every one of the 14 names (`int("POST")` etc. raises
`ValueError`), so "parsing that name yields the name back" and "construction
never fails" are false as stated; only integer-convertible tokens
construct. -/
theorem podstate_parse_name_cex :
    PodState.mk? "ARMED" = none ∧
    ∀ nm ∈ PodState.MAP.map Prod.fst, PodState.mk? nm = none := by decide

/-- C3 amended: for every one of the 14 known entries, constructing a
`PodState` from its ordinal (equivalently, parsing the ordinal's decimal
token, which always succeeds) and projecting the name yields that entry's
canonical name, and projecting the short code yields a fixed 4-character
code; for an unrecognized ordinal the name projection yields `"UNKNOWN"`
and the short-code projection yields `"----"`. -/
theorem podstate_roundtrip_spec :
    (∀ kv ∈ PodState.MAP,
      PodState.mk? (toString kv.2) = some ⟨kv.2⟩ ∧
      PodState.str ⟨kv.2⟩ = kv.1 ∧
      (PodState.short ⟨kv.2⟩).length = 4) ∧
    (∀ n : Int, n < 0 ∨ 13 < n →
      PodState.str ⟨n⟩ = "UNKNOWN" ∧ PodState.short ⟨n⟩ = "----") := by
  constructor
  · decide
  · intro n hn
    have hm : PodState.MAP.filter (fun kv => kv.2 == n) = [] := by
      simp only [PodState.MAP, List.filter_eq_nil_iff]
      intro kv hkv
      fin_cases hkv <;> simp <;> omega
    have hs : PodState.SHORT_MAP.filter (fun kv => kv.2 == n) = [] := by
      simp only [PodState.SHORT_MAP, List.filter_eq_nil_iff]
      intro kv hkv
      fin_cases hkv <;> simp <;> omega
    exact ⟨by simp [PodState.str, hm], by simp [PodState.short, hs]⟩

/-- Witness for C3 amended: the ARMED entry round-trips through its ordinal
6, and the unrecognized ordinal 20 renders as UNKNOWN / ----. -/
theorem podstate_roundtrip_witness :
    PodState.mk? "6" = some ⟨6⟩ ∧ PodState.str ⟨6⟩ = "ARMED" ∧
    PodState.str ⟨20⟩ = "UNKNOWN" ∧ PodState.short ⟨20⟩ = "----" :=
  ⟨(podstate_roundtrip_spec.1 ("ARMED", 6) (by decide)).1,
   (podstate_roundtrip_spec.1 ("ARMED", 6) (by decide)).2.1,
   (podstate_roundtrip_spec.2 20 (Or.inr (by decide))).1,
   (podstate_roundtrip_spec.2 20 (Or.inr (by decide))).2⟩

/-- C1 counterexample: on a session with no previously known state,
`handle_data("PONG:ARMED")` does *not* update the last-known state to ARMED
and does *not* trigger a redraw — `PodState("ARMED")` raises `ValueError`
(`int("ARMED")`), so the call raises after the liveness bookkeeping and the
state is left unchanged. -/
theorem handle_data_pong_armed_cex :
    (Pod.handle_data (Pod.init ("127.0.0.1", 7779) 0) 5 ⟨0, ""⟩
        "PONG:ARMED").ret = none ∧
    (Pod.handle_data (Pod.init ("127.0.0.1", 7779) 0) 5 ⟨0, ""⟩
        "PONG:ARMED").pod.state = none ∧
    (Pod.handle_data (Pod.init ("127.0.0.1", 7779) 0) 5 ⟨0, ""⟩
        "PONG:ARMED").evs = [] ∧
    (Pod.handle_data (Pod.init ("127.0.0.1", 7779) 0) 5 ⟨0, ""⟩
        "PONG:ARMED").pod.last_ping = 5 ∧
    (Pod.handle_data (Pod.init ("127.0.0.1", 7779) 0) 5 ⟨0, ""⟩
        "PONG:ARMED").pod.recieved = 1 := by decide

/-- C1 amended: on a session with no previously known state,
`handle_data` of the ARMED liveness reply in its wire form `"PONG:6"`
(the state token is the integer ordinal; ordinal 6 names ARMED) updates the
last-known state to ARMED, updates `last_ping` to now, increments
`recieved`, and redraws the prompt in place (carriage return + prompt
written to stdout); calling it again with the same payload performs the
bookkeeping again but does not redraw, because the newly parsed state
equals the previously known one. -/
theorem handle_data_pong_ordinal_spec (p : Pod) (rs : RenderState)
    (t1 t2 : Int) (h : p.state = none) :
    ((p.handle_data t1 rs "PONG:6").pod.state = some ⟨6⟩ ∧
     PodState.str ⟨6⟩ = "ARMED" ∧
     (p.handle_data t1 rs "PONG:6").pod.last_ping = t1 ∧
     (p.handle_data t1 rs "PONG:6").pod.recieved = p.recieved + 1 ∧
     (p.handle_data t1 rs "PONG:6").ret = some false ∧
     (∃ prompt, (p.handle_data t1 rs "PONG:6").evs =
       [Ev.stdout "\r", Ev.stdout prompt])) ∧
    (((p.handle_data t1 rs "PONG:6").pod.handle_data t2
        (p.handle_data t1 rs "PONG:6").rs "PONG:6").evs = [] ∧
     ((p.handle_data t1 rs "PONG:6").pod.handle_data t2
        (p.handle_data t1 rs "PONG:6").rs "PONG:6").ret = some false ∧
     ((p.handle_data t1 rs "PONG:6").pod.handle_data t2
        (p.handle_data t1 rs "PONG:6").rs "PONG:6").pod.state = some ⟨6⟩ ∧
     ((p.handle_data t1 rs "PONG:6").pod.handle_data t2
        (p.handle_data t1 rs "PONG:6").rs "PONG:6").pod.last_ping = t2 ∧
     ((p.handle_data t1 rs "PONG:6").pod.handle_data t2
        (p.handle_data t1 rs "PONG:6").rs "PONG:6").pod.recieved =
       p.recieved + 2) := by
  have hc : strContains "PONG:6" "PONG" = true := by decide
  have hf : splitField1 "PONG:6" = some "6" := by decide
  have hk : PodState.mk? "6" = some ⟨6⟩ := by decide
  rcases hmp : (make_prompt { p with last_ping := t1, recieved := p.recieved + 1, state := some ⟨6⟩ } rs "> ") with ⟨rs2, pr⟩
  have h1 : p.handle_data t1 rs "PONG:6" =
      ⟨{ p with last_ping := t1, recieved := p.recieved + 1, state := some ⟨6⟩ },
       rs2, [Ev.stdout "\r", Ev.stdout pr], some false⟩ := by
    simp only [Pod.handle_data, hc, hf, hk, h, if_true, hmp]
  have h2 : ∀ q : Pod, q.state = some ⟨6⟩ →
      q.handle_data t2 rs2 "PONG:6" =
        ⟨{ q with last_ping := t2, recieved := q.recieved + 1, state := some ⟨6⟩ },
         rs2, [], some false⟩ := by
    intro q hq
    simp only [Pod.handle_data, hc, hf, hk, hq]
    simp
  rw [h1]
  refine ⟨⟨rfl, by decide, rfl, rfl, rfl, ⟨pr, rfl⟩⟩, ?_⟩
  rw [h2 _ rfl]
  refine ⟨rfl, rfl, rfl, rfl, ?_⟩
  show p.recieved + 1 + 1 = p.recieved + 2
  omega

/-- Witness for C1 amended, at a freshly initialized session. -/
theorem handle_data_pong_ordinal_witness :
    (Pod.handle_data (Pod.init ("127.0.0.1", 7779) 0) 5 ⟨0, ""⟩
        "PONG:6").pod.state = some ⟨6⟩ ∧
    ((Pod.handle_data (Pod.init ("127.0.0.1", 7779) 0) 5 ⟨0, ""⟩
        "PONG:6").pod.handle_data 9
      (Pod.handle_data (Pod.init ("127.0.0.1", 7779) 0) 5 ⟨0, ""⟩
        "PONG:6").rs "PONG:6").evs = [] :=
  ⟨(handle_data_pong_ordinal_spec (Pod.init ("127.0.0.1", 7779) 0) ⟨0, ""⟩
      5 9 rfl).1.1,
   (handle_data_pong_ordinal_spec (Pod.init ("127.0.0.1", 7779) 0) ⟨0, ""⟩
      5 9 rfl).2.1⟩

/-- C9: inbound classification is by substring containment, not prefix
framing: for every input, `handle_data` returns true (caller should redraw)
iff `"PONG"` occurs nowhere in the input; a PONG-free payload is written
verbatim to stdout, while any payload merely containing `"PONG"` is treated
as a liveness reply (bookkeeping updated) and is never written verbatim as
the output. -/
theorem handle_data_classification_spec (p : Pod) (now : Int)
    (rs : RenderState) (data : String) :
    ((p.handle_data now rs data).ret = some true ↔
      strContains data "PONG" = false) ∧
    (strContains data "PONG" = false →
      (p.handle_data now rs data).evs = [Ev.stdout data]) ∧
    (strContains data "PONG" = true →
      (p.handle_data now rs data).pod.recieved = p.recieved + 1 ∧
      (p.handle_data now rs data).pod.last_ping = now ∧
      (p.handle_data now rs data).evs ≠ [Ev.stdout data]) := by
  cases hc : strContains data "PONG" with
  | false => simp [Pod.handle_data, hc]
  | true =>
    rcases hsf : splitField1 data with _ | tok
    · simp [Pod.handle_data, hc, hsf]
    · rcases hmk : PodState.mk? tok with _ | st
      · simp [Pod.handle_data, hc, hsf, hmk]
      · rcases hps : p.state with _ | s0
        · rcases hmp : (make_prompt { p with last_ping := now, recieved := p.recieved + 1, state := some st } rs "> ") with ⟨rs2, pr⟩
          simp [Pod.handle_data, hc, hsf, hmk, hps, hmp]
        · by_cases hne : st._state = s0._state
          · simp [Pod.handle_data, hc, hsf, hmk, hps, hne]
          · rcases hmp : (make_prompt { p with last_ping := now, recieved := p.recieved + 1, state := some st } rs "> ") with ⟨rs2, pr⟩
            simp [Pod.handle_data, hc, hsf, hmk, hps, hne, hmp]

/-- Witness for C9: a PONG-free payload is echoed verbatim and asks for a
redraw; a payload with `"PONG"` mid-text is treated as a liveness reply. -/
theorem handle_data_classification_witness :
    (Pod.handle_data (Pod.init ("127.0.0.1", 7779) 0) 3 ⟨0, ""⟩
        "telemetry 42\n").evs = [Ev.stdout "telemetry 42\n"] ∧
    (Pod.handle_data (Pod.init ("127.0.0.1", 7779) 0) 3 ⟨0, ""⟩
        "log PONG seen").pod.recieved = 1 :=
  ⟨(handle_data_classification_spec (Pod.init ("127.0.0.1", 7779) 0) 3 ⟨0, ""⟩
      "telemetry 42\n").2.1 (by decide),
   ((handle_data_classification_spec (Pod.init ("127.0.0.1", 7779) 0) 3 ⟨0, ""⟩
      "log PONG seen").2.2 (by decide)).1⟩

/-- C10: `handle_data` is not atomic on a malformed liveness reply: for an
input containing `"PONG"` whose `":"`-split second field is missing
(no colon, e.g. the bare `"PONG"`) or is not integer-convertible
(e.g. `"PONG:ARMED"`), it first sets `last_ping` to now and increments
`recieved`, then raises while parsing the state token, so those bookkeeping
updates persist while the call fails, the last-known state is left
unchanged, and nothing is written. -/
theorem handle_data_nonatomic_spec (p : Pod) (now : Int) (rs : RenderState)
    (data : String) (hc : strContains data "PONG" = true)
    (htok : ∀ t, splitField1 data = some t → PodState.mk? t = none) :
    (p.handle_data now rs data).ret = none ∧
    (p.handle_data now rs data).pod.last_ping = now ∧
    (p.handle_data now rs data).pod.recieved = p.recieved + 1 ∧
    (p.handle_data now rs data).pod.state = p.state ∧
    (p.handle_data now rs data).evs = [] := by
  rcases hsf : splitField1 data with _ | tok
  · simp [Pod.handle_data, hc, hsf]
  · simp [Pod.handle_data, hc, hsf, htok tok hsf]

/-- Witness for C10: the bare `"PONG"` (no colon at all) and
`"PONG:ARMED"` (non-integer token) both leave the bookkeeping updated,
the state unchanged, and the call raised. -/
theorem handle_data_nonatomic_witness :
    ((Pod.handle_data (Pod.init ("127.0.0.1", 7779) 0) 7 ⟨0, ""⟩ "PONG").ret
        = none ∧
      (Pod.handle_data (Pod.init ("127.0.0.1", 7779) 0) 7 ⟨0, ""⟩
        "PONG").pod.last_ping = 7 ∧
      (Pod.handle_data (Pod.init ("127.0.0.1", 7779) 0) 7 ⟨0, ""⟩
        "PONG").pod.recieved = 1 ∧
      (Pod.handle_data (Pod.init ("127.0.0.1", 7779) 0) 7 ⟨0, ""⟩
        "PONG").pod.state = none ∧
      (Pod.handle_data (Pod.init ("127.0.0.1", 7779) 0) 7 ⟨0, ""⟩
        "PONG").evs = []) ∧
    (Pod.handle_data (Pod.init ("127.0.0.1", 7779) 0) 7 ⟨0, ""⟩
        "PONG:ARMED").ret = none :=
  ⟨by
    have h := handle_data_nonatomic_spec (Pod.init ("127.0.0.1", 7779) 0) 7
      ⟨0, ""⟩ "PONG" (by decide)
      (fun t ht => by
        rw [show splitField1 "PONG" = (none : Option String) from by decide]
          at ht
        exact absurd ht (by simp))
    exact ⟨h.1, h.2.1, h.2.2.1, h.2.2.2.1, h.2.2.2.2⟩,
   by
    have h := handle_data_nonatomic_spec (Pod.init ("127.0.0.1", 7779) 0) 7
      ⟨0, ""⟩ "PONG:ARMED" (by decide)
      (fun t ht => by
        rw [show splitField1 "PONG:ARMED" = some "ARMED" from by decide] at ht
        cases ht
        decide)
    exact h.1⟩

/-- C4: padding is *not* by visible width.  At a session with address
`("", 0)` and known state ARMED, rendering once with `extra = "12345678"`
produces a line of stripped (visible) length 20; rendering next with
`extra = ""` produces a line of stripped length 12 — yet the code pads with
25 trailing spaces, not 8, because the pad count uses the raw
(markup-carrying) length of the stored previous prompt (37) minus the new
stripped length (12), even though the shorter-than-previous test itself
compares stripped lengths. -/
theorem make_prompt_pad_bug :
    ((Ansi.strip (make_prompt ⟨some 3, ("", 0), 0, 0, some ⟨6⟩⟩ ⟨0, ""⟩
        "12345678").2).length = 20) ∧
    ((make_prompt ⟨some 3, ("", 0), 0, 0, some ⟨6⟩⟩ ⟨0, ""⟩
        "12345678").1.LAST_PROMPT.length = 37) ∧
    ((Ansi.strip (make_prompt ⟨some 3, ("", 0), 0, 0, some ⟨6⟩⟩
        (make_prompt ⟨some 3, ("", 0), 0, 0, some ⟨6⟩⟩ ⟨0, ""⟩
          "12345678").1 "").2).length - trailingSpaces
        (make_prompt ⟨some 3, ("", 0), 0, 0, some ⟨6⟩⟩
        (make_prompt ⟨some 3, ("", 0), 0, 0, some ⟨6⟩⟩ ⟨0, ""⟩
          "12345678").1 "").2 = 12) ∧
    (trailingSpaces (make_prompt ⟨some 3, ("", 0), 0, 0, some ⟨6⟩⟩
        (make_prompt ⟨some 3, ("", 0), 0, 0, some ⟨6⟩⟩ ⟨0, ""⟩
          "12345678").1 "").2 = 25) := by decide

/-- Helper for C8: from any check index `k`, if the flag is observed false
at offset `m` within the remaining fuel, the loop exits at the first false
observation at or after `k`, having invoked the callback exactly once per
earlier (true) check. -/
theorem Heart.startAux_exits (observe : Nat → Bool) :
    ∀ fuel k m, observe (k + m) = false → m < fuel →
      ∃ j, j ≤ m ∧ Heart.startAux observe k fuel = some (k + j) ∧
        observe (k + j) = false ∧ ∀ i, i < j → observe (k + i) = true := by
  intro fuel
  induction fuel with
  | zero => intro k m _ hm; omega
  | succ fuel ih =>
    intro k m hobs hm
    by_cases ho : observe k = true
    · cases m with
      | zero =>
        rw [Nat.add_zero] at hobs
        rw [ho] at hobs
        cases hobs
      | succ m' =>
        have hobs' : observe ((k + 1) + m') = false := by
          rw [show (k + 1) + m' = k + (m' + 1) by omega]
          exact hobs
        obtain ⟨j, hj, heq, hfalse, hall⟩ := ih (k + 1) m' hobs' (by omega)
        refine ⟨j + 1, by omega, ?_, ?_, ?_⟩
        · rw [Heart.startAux, if_pos ho, heq]
          exact congrArg some (by omega)
        · rw [show k + (j + 1) = (k + 1) + j by omega]
          exact hfalse
        · intro i hi
          cases i with
          | zero => simpa using ho
          | succ i' =>
            rw [show k + (i' + 1) = (k + 1) + i' by omega]
            exact hall i' (by omega)
    · refine ⟨0, Nat.zero_le _, ?_, ?_, by omega⟩
      · rw [Heart.startAux, if_neg ho]
        exact congrArg some (by omega)
      · simpa using Bool.eq_false_iff.mpr ho

/-- C8: the Heart driver loop checks the shared `running` flag before each
iteration (callback invocation); `stop()` clears the flag, and once some
check observes the cleared flag — say check `n` — the loop terminates:
`start` returns the index `k ≤ n` of the first false observation, exactly
`k` callback invocations have occurred, each one under a true observation
(so an in-flight invocation before the false check completes, and the
callback is never invoked at or after the check that observes the cleared
flag). -/
theorem heart_stop_spec (h : Heart) (observe : Nat → Bool) (n fuel : Nat)
    (hobs : observe n = false) (hfuel : n < fuel) :
    (h.stop).running = false ∧
    ∃ k, k ≤ n ∧ Heart.start observe fuel = some k ∧ observe k = false ∧
      ∀ i, i < k → observe i = true := by
  refine ⟨rfl, ?_⟩
  obtain ⟨j, hj, heq, hfalse, hall⟩ :=
    Heart.startAux_exits observe fuel 0 n (by simpa using hobs) hfuel
  exact ⟨j, hj, by simpa using heq, by simpa using hfalse,
    fun i hi => by simpa using hall i hi⟩

/-- Witness for C8: with the flag observed true at checks 0 and 1 and false
at check 2, the loop makes exactly 2 callback invocations and stops. -/
theorem heart_stop_witness :
    (Heart.stop ⟨1, true⟩).running = false ∧
    Heart.start (fun i => decide (i < 2)) 5 = some 2 := by
  have h := heart_stop_spec ⟨1, true⟩ (fun i => decide (i < 2)) 2 5 (by decide)
    (by decide)
  refine ⟨h.1, ?_⟩
  obtain ⟨k, hk, heq, hkf, hall⟩ := h.2
  have hk2 : k = 2 := by
    simp only [decide_eq_false_iff_not, Nat.not_lt] at hkf
    omega
  exact hk2 ▸ heq
